import Mathlib

/-!
Verification of the resilience layer of the pyidverify repository
(`src/integrations/external.py`, `src/utils/caching.py`).

The Python classes are shallowly embedded as pure Lean functions:
mutation of `self` becomes explicit state passing, `time.time()` becomes
an explicit `now : Int` argument (only `+`, `-` and order comparisons are
performed on timestamps, so integer time is faithful), and raised
exceptions become `Except` values.  The `RateLimiter` class is imported
by `external.py` from `..security.rate_limiting`, a module that is not
among the sources; it is modelled from the spec (section 4.1).
-/

namespace Pyidverify

/-- Circuit breaker service states (`ServiceState` enum in
`src/integrations/external.py`).  `OPEN` is spelled `opened` because
`open` is a Lean keyword. -/
inductive ServiceState where
  | closed
  | opened
  | halfOpen
deriving DecidableEq

/-- Configuration for the circuit breaker pattern
(`CircuitBreakerConfig` dataclass).  `timeout_seconds` is unused by the
breaker logic and omitted. -/
structure CircuitBreakerConfig where
  failure_threshold : Nat := 5
  recovery_timeout : Int := 60
  success_threshold : Nat := 3
deriving DecidableEq

/-- Mutable state of a `CircuitBreaker` instance.  The audit logger calls
have no effect on the breaker state and are not modelled. -/
structure CircuitBreaker where
  config : CircuitBreakerConfig
  state : ServiceState
  failure_count : Nat
  success_count : Nat
  last_failure_time : Int
  last_state_change : Int
deriving DecidableEq

/-- The `CircuitBreaker.__init__` constructor: state CLOSED, zero
counters, `last_failure_time = 0`, `last_state_change = time.time()`. -/
def CircuitBreaker.init (config : CircuitBreakerConfig) (now : Int) : CircuitBreaker :=
  { config := config
    state := .closed
    failure_count := 0
    success_count := 0
    last_failure_time := 0
    last_state_change := now }

/-- Python `CircuitBreaker._transition_to_closed`. -/
def CircuitBreaker.transition_to_closed (cb : CircuitBreaker) (now : Int) : CircuitBreaker :=
  { cb with
    state := .closed
    failure_count := 0
    success_count := 0
    last_state_change := now }

/-- Python `CircuitBreaker._transition_to_open`. -/
def CircuitBreaker.transition_to_open (cb : CircuitBreaker) (now : Int) : CircuitBreaker :=
  { cb with state := .opened, success_count := 0, last_state_change := now }

/-- Python `CircuitBreaker._transition_to_half_open`. -/
def CircuitBreaker.transition_to_half_open (cb : CircuitBreaker) (now : Int) : CircuitBreaker :=
  { cb with state := .halfOpen, success_count := 0, last_state_change := now }

/-- Python `CircuitBreaker.can_execute`, with `time.time()` passed in as
`now`.  Returns the boolean result together with the possibly updated
breaker (the OPEN branch can transition to HALF_OPEN). -/
def CircuitBreaker.can_execute (cb : CircuitBreaker) (now : Int) : Bool × CircuitBreaker :=
  match cb.state with
  | .closed => (true, cb)
  | .opened =>
      if cb.config.recovery_timeout ≤ now - cb.last_failure_time then
        (true, cb.transition_to_half_open now)
      else
        (false, cb)
  | .halfOpen => (true, cb)

/-- Python `CircuitBreaker.record_success`. -/
def CircuitBreaker.record_success (cb : CircuitBreaker) (now : Int) : CircuitBreaker :=
  match cb.state with
  | .halfOpen =>
      let cb2 := { cb with success_count := cb.success_count + 1 }
      if cb2.config.success_threshold ≤ cb2.success_count then
        cb2.transition_to_closed now
      else
        cb2
  | .closed => { cb with failure_count := 0 }
  | .opened => cb

/-- Python `CircuitBreaker.record_failure`: increments `failure_count`
and stamps `last_failure_time` unconditionally, then transitions by
state. -/
def CircuitBreaker.record_failure (cb : CircuitBreaker) (now : Int) : CircuitBreaker :=
  let cb2 := { cb with failure_count := cb.failure_count + 1, last_failure_time := now }
  match cb2.state with
  | .closed =>
      if cb2.config.failure_threshold ≤ cb2.failure_count then
        cb2.transition_to_open now
      else
        cb2
  | .halfOpen => cb2.transition_to_open now
  | .opened => cb2

/-- A sequence of `record_failure` calls at the given timestamps. -/
def record_failures (cb : CircuitBreaker) (times : List Int) : CircuitBreaker :=
  times.foldl (fun acc t => acc.record_failure t) cb

/-- A sequence of `record_success` calls at the given timestamps. -/
def record_successes (cb : CircuitBreaker) (times : List Int) : CircuitBreaker :=
  times.foldl (fun acc t => acc.record_success t) cb

theorem record_failure_config (cb : CircuitBreaker) (now : Int) :
    (cb.record_failure now).config = cb.config := by
  unfold CircuitBreaker.record_failure
  cases h : cb.state <;>
    simp [h, CircuitBreaker.transition_to_open] <;>
    split <;> simp [CircuitBreaker.transition_to_open]

theorem record_success_config (cb : CircuitBreaker) (now : Int) :
    (cb.record_success now).config = cb.config := by
  unfold CircuitBreaker.record_success
  cases h : cb.state <;>
    simp [h, CircuitBreaker.transition_to_closed] <;>
    split <;> simp [CircuitBreaker.transition_to_closed]

theorem record_failures_config (times : List Int) :
    ∀ cb : CircuitBreaker, (record_failures cb times).config = cb.config := by
  induction times with
  | nil => intro cb; rfl
  | cons t rest ih =>
      intro cb
      show (record_failures (cb.record_failure t) rest).config = cb.config
      rw [ih, record_failure_config]

theorem record_successes_config (times : List Int) :
    ∀ cb : CircuitBreaker, (record_successes cb times).config = cb.config := by
  induction times with
  | nil => intro cb; rfl
  | cons t rest ih =>
      intro cb
      show (record_successes (cb.record_success t) rest).config = cb.config
      rw [ih, record_success_config]

/-- Auxiliary: from the CLOSED state, a run of failures whose length
reaches exactly the remaining distance to the threshold ends in the OPEN
state. -/
theorem closed_failure_run_opens (times : List Int) :
    ∀ cb : CircuitBreaker, cb.state = .closed →
      cb.failure_count + times.length = cb.config.failure_threshold →
      times ≠ [] →
      (record_failures cb times).state = .opened := by
  induction times with
  | nil => intro cb _ _ hne; exact absurd rfl hne
  | cons t rest ih =>
      intro cb hstate hcount _
      show (record_failures (cb.record_failure t) rest).state = .opened
      by_cases hrest : rest = []
      · subst hrest
        have hthr : cb.config.failure_threshold ≤ cb.failure_count + 1 := by
          simp at hcount; omega
        show (cb.record_failure t).state = .opened
        unfold CircuitBreaker.record_failure
        simp [hstate, hthr, CircuitBreaker.transition_to_open]
      · have hlt : cb.failure_count + 1 < cb.config.failure_threshold := by
          have : rest.length ≠ 0 := by
            intro h0; exact hrest (List.length_eq_zero.mp h0)
          simp at hcount; omega
        have hstep : cb.record_failure t =
            { cb with failure_count := cb.failure_count + 1, last_failure_time := t } := by
          unfold CircuitBreaker.record_failure
          simp [hstate]
          omega
        rw [hstep]
        exact ih _ hstate (by simp at hcount ⊢; omega) hrest

/-- Auxiliary: from the HALF_OPEN state, a run of successes whose length
reaches exactly the remaining distance to the success threshold closes
the breaker and resets both counters. -/
theorem half_open_success_run_closes (times : List Int) :
    ∀ cb : CircuitBreaker, cb.state = .halfOpen →
      cb.success_count + times.length = cb.config.success_threshold →
      times ≠ [] →
      (record_successes cb times).state = .closed ∧
      (record_successes cb times).failure_count = 0 ∧
      (record_successes cb times).success_count = 0 := by
  induction times with
  | nil => intro cb _ _ hne; exact absurd rfl hne
  | cons t rest ih =>
      intro cb hstate hcount _
      show (record_successes (cb.record_success t) rest).state = .closed ∧
        (record_successes (cb.record_success t) rest).failure_count = 0 ∧
        (record_successes (cb.record_success t) rest).success_count = 0
      by_cases hrest : rest = []
      · subst hrest
        have hthr : cb.config.success_threshold ≤ cb.success_count + 1 := by
          simp at hcount; omega
        show (cb.record_success t).state = .closed ∧
          (cb.record_success t).failure_count = 0 ∧
          (cb.record_success t).success_count = 0
        unfold CircuitBreaker.record_success
        simp [hstate, hthr, CircuitBreaker.transition_to_closed]
      · have hlt : cb.success_count + 1 < cb.config.success_threshold := by
          have : rest.length ≠ 0 := by
            intro h0; exact hrest (List.length_eq_zero.mp h0)
          simp at hcount; omega
        have hstep : cb.record_success t =
            { cb with success_count := cb.success_count + 1 } := by
          unfold CircuitBreaker.record_success
          simp [hstate]
          omega
        rw [hstep]
        exact ih _ hstate (by simp at hcount ⊢; omega) hrest

/-- Auxiliary: `can_execute` in the OPEN state before the recovery
timeout has elapsed returns `false` without mutating the breaker. -/
theorem can_execute_open_blocked (cb : CircuitBreaker) (now : Int)
    (hopen : cb.state = .opened)
    (ht : now - cb.last_failure_time < cb.config.recovery_timeout) :
    cb.can_execute now = (false, cb) := by
  unfold CircuitBreaker.can_execute
  rw [hopen]
  rw [if_neg (by omega)]

/-- Auxiliary: `can_execute` in the OPEN state once the recovery timeout
has elapsed transitions to HALF_OPEN and returns `true`. -/
theorem can_execute_open_recovers (cb : CircuitBreaker) (now : Int)
    (hopen : cb.state = .opened)
    (ht : cb.config.recovery_timeout ≤ now - cb.last_failure_time) :
    cb.can_execute now = (true, cb.transition_to_half_open now) := by
  unfold CircuitBreaker.can_execute
  rw [hopen]
  rw [if_pos ht]

/-- C2: starting from the Closed state with `failure_count = 0` and
`failure_threshold = f ≥ 1`, a run of `f` consecutive `record_failure`
calls moves the breaker to Open, and a `can_execute` call made while
`now - last_failure_time < recovery_timeout` then returns `false`. -/
theorem breaker_opens_on_threshold (cb : CircuitBreaker) (times : List Int) (now : Int)
    (hclosed : cb.state = .closed) (hzero : cb.failure_count = 0)
    (hthr : 1 ≤ cb.config.failure_threshold)
    (hlen : times.length = cb.config.failure_threshold)
    (hnow : now - (record_failures cb times).last_failure_time
              < cb.config.recovery_timeout) :
    (record_failures cb times).state = .opened ∧
    ((record_failures cb times).can_execute now).1 = false := by
  have hne : times ≠ [] := by
    intro h; subst h; simp at hlen; omega
  have hopen := closed_failure_run_opens times cb hclosed (by omega) hne
  have hcfg := record_failures_config times cb
  refine ⟨hopen, ?_⟩
  rw [can_execute_open_blocked _ now hopen (by rw [hcfg]; omega)]

/-- Witness for C2 at `failure_threshold = 3`, `recovery_timeout = 60`:
three failures at times 1, 2, 3 open the breaker and a call at time 10
is rejected. -/
theorem breaker_opens_on_threshold_witness :
    (record_failures (CircuitBreaker.init ⟨3, 60, 2⟩ 0) [1, 2, 3]).state = .opened ∧
    ((record_failures (CircuitBreaker.init ⟨3, 60, 2⟩ 0) [1, 2, 3]).can_execute 10).1
      = false :=
  breaker_opens_on_threshold (CircuitBreaker.init ⟨3, 60, 2⟩ 0) [1, 2, 3] 10
    (by decide) (by decide) (by decide) (by decide) (by decide)

/-- C3: in the Open state, once `recovery_timeout` has elapsed past
`last_failure_time`, `can_execute` returns `true` and moves to HalfOpen
with `success_count = 0`; from there `success_threshold` consecutive
`record_success` calls close the breaker with both counters reset, and a
single `record_failure` while HalfOpen reopens it. -/
theorem breaker_recovers (cb : CircuitBreaker) (now : Int) (stimes : List Int) (ftime : Int)
    (hopen : cb.state = .opened)
    (ht : cb.config.recovery_timeout ≤ now - cb.last_failure_time)
    (hs : 1 ≤ cb.config.success_threshold)
    (hlen : stimes.length = cb.config.success_threshold) :
    (cb.can_execute now).1 = true ∧
    (cb.can_execute now).2.state = .halfOpen ∧
    (cb.can_execute now).2.success_count = 0 ∧
    (record_successes (cb.can_execute now).2 stimes).state = .closed ∧
    (record_successes (cb.can_execute now).2 stimes).failure_count = 0 ∧
    (record_successes (cb.can_execute now).2 stimes).success_count = 0 ∧
    ((cb.can_execute now).2.record_failure ftime).state = .opened := by
  rw [can_execute_open_recovers cb now hopen ht]
  have hstate : (cb.transition_to_half_open now).state = .halfOpen := rfl
  have hcount : (cb.transition_to_half_open now).success_count = 0 := rfl
  have hne : stimes ≠ [] := by intro h; subst h; simp at hlen; omega
  have hrun := half_open_success_run_closes stimes (cb.transition_to_half_open now)
    hstate (by rw [hcount]; simpa [CircuitBreaker.transition_to_half_open] using hlen) hne
  refine ⟨rfl, hstate, hcount, hrun.1, hrun.2.1, hrun.2.2, ?_⟩
  unfold CircuitBreaker.record_failure
  simp [hstate, CircuitBreaker.transition_to_open]

/-- Concrete breaker used by the C3 witness: Open with three recorded
failures, last failure at time 100, `recovery_timeout = 60`,
`success_threshold = 2`. -/
def cbRecoverW : CircuitBreaker :=
  { config := ⟨3, 60, 2⟩
    state := .opened
    failure_count := 3
    success_count := 0
    last_failure_time := 100
    last_state_change := 100 }

/-- Witness for C3: at time 200 the breaker above recovers to HalfOpen,
two successes close it, and a failure from HalfOpen reopens it. -/
theorem breaker_recovers_witness :
    (cbRecoverW.can_execute 200).1 = true ∧
    (cbRecoverW.can_execute 200).2.state = .halfOpen ∧
    (cbRecoverW.can_execute 200).2.success_count = 0 ∧
    (record_successes (cbRecoverW.can_execute 200).2 [201, 202]).state = .closed ∧
    (record_successes (cbRecoverW.can_execute 200).2 [201, 202]).failure_count = 0 ∧
    (record_successes (cbRecoverW.can_execute 200).2 [201, 202]).success_count = 0 ∧
    ((cbRecoverW.can_execute 200).2.record_failure 205).state = .opened :=
  breaker_recovers cbRecoverW 200 [201, 202] 205
    (by decide) (by decide) (by decide) (by decide)

/-- C10: `record_failure` in the Open state leaves the state Open, still
increments `failure_count`, re-stamps `last_failure_time` to the call
time, and every `can_execute` within `recovery_timeout` of that new
stamp returns `false`. -/
theorem open_record_failure_stays_open (cb : CircuitBreaker) (now : Int)
    (hopen : cb.state = .opened) :
    (cb.record_failure now).state = .opened ∧
    (cb.record_failure now).failure_count = cb.failure_count + 1 ∧
    (cb.record_failure now).last_failure_time = now ∧
    ∀ t : Int, t - now < cb.config.recovery_timeout →
      ((cb.record_failure now).can_execute t).1 = false := by
  have hstep : cb.record_failure now =
      { cb with failure_count := cb.failure_count + 1, last_failure_time := now } := by
    unfold CircuitBreaker.record_failure
    simp [hopen]
  rw [hstep]
  refine ⟨hopen, rfl, rfl, fun t ht => ?_⟩
  have hb := can_execute_open_blocked
    { cb with failure_count := cb.failure_count + 1, last_failure_time := now } t hopen ht
  rw [hb]

/-- Witness for C10: the C3 witness breaker, failing again at time 130,
stays Open with count 4 and a call at time 150 is still rejected. -/
theorem open_record_failure_stays_open_witness :
    (cbRecoverW.record_failure 130).state = .opened ∧
    (cbRecoverW.record_failure 130).failure_count = 3 + 1 ∧
    (cbRecoverW.record_failure 130).last_failure_time = 130 ∧
    ((cbRecoverW.record_failure 130).can_execute 150).1 = false := by
  have h := open_record_failure_stays_open cbRecoverW 130 (by decide)
  exact ⟨h.1, h.2.1, h.2.2.1, h.2.2.2 150 (by decide)⟩

/-!
LRU cache (`src/utils/caching.py`, class `LRUCache`).  The Python
`OrderedDict` is embedded as an association list whose order is the
iteration (insertion) order: the head is the least recently used entry
and the tail end the most recently used, because `get` re-inserts a hit
at the end and `set` appends, exactly as the Python code pops and
re-adds.  Locks and the `CacheStats` bookkeeping have no effect on the
stored mapping and are not modelled.
-/

/-- Lookup of a key in an association list (membership test plus value
access of the Python dict). -/
def lookupKey {K V : Type} [DecidableEq K] (k : K) : List (K × V) → Option V
  | [] => none
  | e :: es => if e.1 = k then some e.2 else lookupKey k es

/-- Removal of a key from an association list (Python `dict.pop`). -/
def eraseKey {K V : Type} [DecidableEq K] (k : K) : List (K × V) → List (K × V)
  | [] => []
  | e :: es => if e.1 = k then eraseKey k es else e :: eraseKey k es

/-- State of a Python `LRUCache` instance. -/
structure LRUCache (K V : Type) where
  maxsize : Nat
  entries : List (K × V)
deriving DecidableEq

/-- Python `LRUCache.__init__`: raises `ValueError` when `maxsize <= 0`
(the argument is a Python `int`, hence `Int` here). -/
def LRUCache.mk_checked (K V : Type) (maxsize : Int) : Except String (LRUCache K V) :=
  if maxsize ≤ 0 then
    Except.error "maxsize must be positive"
  else
    Except.ok { maxsize := maxsize.toNat, entries := [] }

/-- Python `LRUCache.get`: a hit is popped and re-appended (most
recently used position) and returned; a miss returns the default
(`none`). -/
def LRUCache.get {K V : Type} [DecidableEq K] (c : LRUCache K V) (k : K) :
    Option V × LRUCache K V :=
  match lookupKey k c.entries with
  | some v => (some v, { c with entries := eraseKey k c.entries ++ [(k, v)] })
  | none => (none, c)

/-- Python `LRUCache.set`: an existing key is popped and re-appended;
otherwise, when the cache is at capacity the least recently used entry
(`popitem(last=False)`, the front) is evicted before appending. -/
def LRUCache.set {K V : Type} [DecidableEq K] (c : LRUCache K V) (k : K) (v : V) :
    LRUCache K V :=
  if (lookupKey k c.entries).isSome then
    { c with entries := eraseKey k c.entries ++ [(k, v)] }
  else if c.maxsize ≤ c.entries.length then
    { c with entries := c.entries.tail ++ [(k, v)] }
  else
    { c with entries := c.entries ++ [(k, v)] }

/-- C8: inserting an absent key into a full cache evicts exactly the
least recently used entry (the front of the recency order): the result
keeps every other entry, in order, and appends the new key at the most
recently used position. -/
theorem lru_set_full_evicts_lru {K V : Type} [DecidableEq K]
    (c : LRUCache K V) (k : K) (v : V)
    (hfull : c.entries.length = c.maxsize)
    (hpos : 0 < c.maxsize)
    (habs : lookupKey k c.entries = none) :
    (c.set k v).entries = c.entries.tail ++ [(k, v)] ∧
    (c.set k v).entries.map Prod.fst = (c.entries.map Prod.fst).tail ++ [k] := by
  have hset : (c.set k v).entries = c.entries.tail ++ [(k, v)] := by
    unfold LRUCache.set
    simp [habs, hfull]
  refine ⟨hset, ?_⟩
  rw [hset]
  cases c.entries with
  | nil => simp
  | cons e es => simp

/-- Concrete cache for the C8 witness: capacity 2 after the operation
sequence `set 1 10; set 2 20; get 1` — key 2 is now the least recently
accessed. -/
def lruW : LRUCache Nat Nat :=
  { maxsize := 2, entries := [(2, 20), (1, 10)] }

/-- Witness for C8: inserting key 3 into the full capacity-2 cache
evicts key 2, the least recently accessed of the first two. -/
theorem lru_set_full_evicts_lru_witness :
    (lruW.set 3 30).entries = [(1, 10), (3, 30)] ∧
    (lruW.set 3 30).entries.map Prod.fst = [1, 3] :=
  ⟨((lru_set_full_evicts_lru lruW 3 30 (by decide) (by decide) (by decide)).1).trans
      (by decide),
   ((lru_set_full_evicts_lru lruW 3 30 (by decide) (by decide) (by decide)).2).trans
      (by decide)⟩

/-!
TTL cache (`src/utils/caching.py`, class `TTLCache`).  The Python dict
mapping keys to `(value, expiry_time)` pairs is embedded as an
association list in iteration (insertion) order; `time.time()` is the
explicit `now` argument.
-/

/-- Lookup in the TTL association list, returning `(value, expiry)`. -/
def lookupTTL {K V : Type} [DecidableEq K] (k : K) :
    List (K × V × Int) → Option (V × Int)
  | [] => none
  | e :: es => if e.1 = k then some e.2 else lookupTTL k es

/-- Removal of a key from the TTL association list (Python `del`). -/
def eraseTTL {K V : Type} [DecidableEq K] (k : K) :
    List (K × V × Int) → List (K × V × Int)
  | [] => []
  | e :: es => if e.1 = k then eraseTTL k es else e :: eraseTTL k es

/-- Assignment `self._cache[key] = (value, expiry_time)`: replaces in
place when present (a Python dict keeps the position), appends when
absent. -/
def insertTTL {K V : Type} [DecidableEq K] (k : K) (v : V) (expiry : Int) :
    List (K × V × Int) → List (K × V × Int)
  | [] => [(k, v, expiry)]
  | e :: es => if e.1 = k then (k, v, expiry) :: es else e :: insertTTL k v expiry es

/-- The entry with the earliest expiry time; Python
`min(keys, key=...)` returns the first minimal key in iteration
order. -/
def min_expiry_entry {K V : Type} : List (K × V × Int) → Option (K × V × Int)
  | [] => none
  | e :: es =>
      match min_expiry_entry es with
      | none => some e
      | some m => if e.2.2 ≤ m.2.2 then some e else some m

/-- State of a Python `TTLCache` instance. -/
structure TTLCache (K V : Type) where
  maxsize : Nat
  default_ttl : Int
  entries : List (K × V × Int)
deriving DecidableEq

/-- Python `TTLCache.get`: a present, unexpired key is a hit; a present
but expired key is deleted on the spot and falls through to the miss
path, which returns the default (`none`). -/
def TTLCache.get {K V : Type} [DecidableEq K] (c : TTLCache K V) (now : Int) (k : K) :
    Option V × TTLCache K V :=
  match lookupTTL k c.entries with
  | some ve =>
      if now < ve.2 then
        (some ve.1, c)
      else
        (none, { c with entries := eraseTTL k c.entries })
  | none => (none, c)

/-- Python `TTLCache.set`: computes `expiry = now + ttl` (default TTL
when `ttl is None`), cleans expired entries when at capacity, evicts the
earliest-expiring entry when still at capacity and the key is new, then
stores the entry. -/
def TTLCache.set {K V : Type} [DecidableEq K] (c : TTLCache K V) (now : Int) (k : K)
    (v : V) (ttl : Option Int) : TTLCache K V :=
  let t := ttl.getD c.default_ttl
  let expiry := now + t
  let es1 :=
    if c.maxsize ≤ c.entries.length then
      c.entries.filter (fun e => decide (now < e.2.2))
    else
      c.entries
  let es2 :=
    if c.maxsize ≤ es1.length ∧ (lookupTTL k es1).isNone then
      match min_expiry_entry es1 with
      | some m => eraseTTL m.1 es1
      | none => es1
    else
      es1
  { c with entries := insertTTL k v expiry es2 }

theorem lookupTTL_insertTTL_self {K V : Type} [DecidableEq K]
    (k : K) (v : V) (expiry : Int) (l : List (K × V × Int)) :
    lookupTTL k (insertTTL k v expiry l) = some (v, expiry) := by
  induction l with
  | nil => simp [insertTTL, lookupTTL]
  | cons e es ih =>
      by_cases h : e.1 = k
      · simp [insertTTL, lookupTTL, h]
      · simp [insertTTL, lookupTTL, h, ih]

theorem lookupTTL_eraseTTL_self {K V : Type} [DecidableEq K]
    (k : K) (l : List (K × V × Int)) :
    lookupTTL k (eraseTTL k l) = none := by
  induction l with
  | nil => rfl
  | cons e es ih =>
      by_cases h : e.1 = k
      · simp [eraseTTL, h, ih]
      · simp [eraseTTL, lookupTTL, h, ih]

/-- C7: after storing key `k` at time `now0` with time-to-live `t`, a
`get` at a time strictly before `now0 + t` is a hit returning the stored
value and leaving the cache unchanged, while a `get` at or after
`now0 + t` returns the default (`none`) and removes the expired entry at
that read. -/
theorem ttl_get_respects_expiry {K V : Type} [DecidableEq K]
    (c : TTLCache K V) (now0 : Int) (k : K) (v : V) (t : Int) (now : Int) :
    (now < now0 + t →
      ((c.set now0 k v (some t)).get now k).1 = some v ∧
      ((c.set now0 k v (some t)).get now k).2 = c.set now0 k v (some t)) ∧
    (now0 + t ≤ now →
      ((c.set now0 k v (some t)).get now k).1 = none ∧
      lookupTTL k ((c.set now0 k v (some t)).get now k).2.entries = none) := by
  have hl : lookupTTL k (c.set now0 k v (some t)).entries = some (v, now0 + t) :=
    lookupTTL_insertTTL_self k v (now0 + t) _
  constructor
  · intro hfresh
    unfold TTLCache.get
    rw [hl]
    simp [hfresh]
  · intro hexp
    have hnot : ¬ now < now0 + t := not_lt.mpr hexp
    unfold TTLCache.get
    rw [hl]
    simp [hnot, lookupTTL_eraseTTL_self]

/-- Empty TTL cache used by the C7 witness. -/
def ttlW : TTLCache Nat Nat :=
  { maxsize := 4, default_ttl := 10, entries := [] }

/-- Witness for C7: key 1 stored at time 0 with TTL 5 is a hit at time
4 and a miss (with the entry purged) at time 7. -/
theorem ttl_get_respects_expiry_witness :
    ((ttlW.set 0 1 42 (some 5)).get 4 1).1 = some 42 ∧
    ((ttlW.set 0 1 42 (some 5)).get 7 1).1 = none ∧
    lookupTTL 1 ((ttlW.set 0 1 42 (some 5)).get 7 1).2.entries = none :=
  ⟨((ttl_get_respects_expiry ttlW 0 1 42 5 4).1 (by decide)).1,
   ((ttl_get_respects_expiry ttlW 0 1 42 5 7).2 (by decide)).1,
   ((ttl_get_respects_expiry ttlW 0 1 42 5 7).2 (by decide)).2⟩

/-!
The orchestrator `ExternalAPIClient.call_api`
(`src/integrations/external.py`) and its collaborators.
-/

/-- Modelled from the spec: the `RateLimiter` class that `external.py`
imports from `pyidverify.security.rate_limiting`, whose source file is
not among the repository sources.  Spec section 4.1 describes it as a
fixed-window counter with lazy rollover.  `ExternalAPIClient.__init__`
constructs it with `max_requests = config.rate_limit_per_minute` and
`time_window = 60`. -/
structure RateLimiter where
  max_requests : Nat
  time_window : Int
  window_start : Int
  count : Nat
deriving DecidableEq

/-- Modelled from the spec: `Allow()` of section 4.1 — if
`now - window_start >= window_duration`, reset the counter and the
window start; then, if `count < max_requests`, increment the counter and
return true, else return false.  The string argument that the call site
passes (`"api_call"`) only names the limited resource and is dropped
here, the limiter instance itself being the resource. -/
def RateLimiter.allow_request (r : RateLimiter) (now : Int) : Bool × RateLimiter :=
  let r1 :=
    if r.time_window ≤ now - r.window_start then
      { r with count := 0, window_start := now }
    else
      r
  if r1.count < r1.max_requests then
    (true, { r1 with count := r1.count + 1 })
  else
    (false, r1)

/-- Configuration for external API integration (`APIConfiguration`
dataclass).  The URL, key, header, SSL and audit fields do not influence
the orchestration logic verified here and are omitted; `provider` is
collapsed to its `.value` string. -/
structure APIConfiguration where
  provider : String := "custom"
  max_retries : Nat := 3
  rate_limit_per_minute : Nat := 60
  use_circuit_breaker : Bool := true
  cache_ttl_seconds : Int := 3600
deriving DecidableEq

/-- Response from an external service call (`ExternalServiceResponse`
dataclass).  `response_time_ms`, `api_call_count` and `metadata` carry
timing and diagnostic data with no behavioural role and are omitted. -/
structure ExternalServiceResponse where
  success : Bool
  data : String
  error_message : Option String := none
  cached : Bool := false
  provider : String := ""
deriving DecidableEq

/-- What the HTTP layer does on one transport invocation inside
`_execute_with_retry`, supplied by the environment. -/
inductive TransportOutcome where
  | ok (body : String)
  | connError (msg : String)
  | timeout
  | httpStatus (status : Nat) (body : String)
deriving DecidableEq

/-- The exceptions observable by `call_api`, each carrying what Python
`str(e)` yields: `IntegrationError` and `aiohttp.ClientError` carry
their message, a bare `asyncio.TimeoutError` (as raised by the aiohttp
timeout machinery) has the empty string, and `TypeError` carries the
interpreter message. -/
inductive ApiError where
  | integration (msg : String)
  | clientError (msg : String)
  | timeoutError
  | typeError (msg : String)
deriving DecidableEq

/-- Python `str(e)` for each exception; `str(asyncio.TimeoutError())`
is the empty string. -/
def ApiError.message : ApiError → String
  | .integration m => m
  | .clientError m => m
  | .timeoutError => ""
  | .typeError m => m

/-- One execution of the body of `_execute_with_retry`: a response with
`status >= 400` raises `IntegrationError("API error {status}: {text}")`,
any other response is returned (JSON parsing that never fails in an
observable way is collapsed to the body string). -/
def attempt_once (o : TransportOutcome) : Except ApiError String :=
  match o with
  | .ok body => Except.ok body
  | .connError m => Except.error (.clientError m)
  | .timeout => Except.error .timeoutError
  | .httpStatus status body =>
      if 400 ≤ status then
        Except.error (.integration ("API error " ++ toString status ++ ": " ++ body))
      else
        Except.ok body

/-- Membership in the exception tuple of the decorator
`@backoff.on_exception(backoff.expo, (aiohttp.ClientError,
asyncio.TimeoutError), max_tries=3)`.  `IntegrationError` — raised for
every HTTP status >= 400, 4xx and 5xx alike — is not in the tuple. -/
def ApiError.retryable : ApiError → Bool
  | .clientError _ => true
  | .timeoutError => true
  | .integration _ => false
  | .typeError _ => false

/-- The retry loop of the `backoff` decorator: run an attempt; re-raise
immediately when the exception is not in the retry tuple or no tries
remain, otherwise sleep (unobservable) and retry.  Returns the final
result together with the number of transport invocations made.  The
environment supplies at least as many outcomes as attempts are made; the
empty-list case is never reached below. -/
def backoff_run : List TransportOutcome → Nat → Except ApiError String × Nat
  | [], _ => (Except.error .timeoutError, 0)
  | o :: rest, tries_left =>
      match attempt_once o with
      | .ok body => (Except.ok body, 1)
      | .error e =>
          if e.retryable ∧ 1 < tries_left then
            let r := backoff_run rest (tries_left - 1)
            (r.1, r.2 + 1)
          else
            (Except.error e, 1)

/-- Python `ExternalAPIClient._execute_with_retry`: the decorator
hard-codes `max_tries=3`; `config.max_retries` is never consulted.  The
configuration is taken as an argument (the method has access to
`self.config`) and ignored, mirroring the source. -/
def execute_with_retry (config : APIConfiguration) (outcomes : List TransportOutcome) :
    Except ApiError String × Nat :=
  backoff_run outcomes 3

/-- Python `ExternalAPIClient._generate_cache_key` builds
`"{endpoint}:{method}:{json.dumps(data, sort_keys=True)}"` and returns
its SHA-256 hex digest; the digest is modelled as the identity on the
key data (hashing only renames keys, collisions aside), and the
serialized payload is the opaque `data` string. -/
def generate_cache_key (endpoint method data : String) : String :=
  endpoint ++ ":" ++ method ++ ":" ++ data

/-- The message of the `TypeError` the interpreter raises at
`self.response_cache.set(cache_key, service_response, ttl=...)`
(external.py line 319): `LRUCache.set` (caching.py line 137) accepts
only `(self, key, value)` and has no `ttl` parameter, so the call raises
before any method body runs. -/
def lru_set_ttl_type_error : String :=
  "set() got an unexpected keyword argument: ttl"

/-- The call `LRUCache.set(key, value, ttl=...)` as written at
external.py line 319 — a `TypeError`, the cache left untouched. -/
def LRUCache.set_with_ttl {K V : Type} [DecidableEq K] (c : LRUCache K V) (k : K)
    (v : V) (ttl : Int) : Except String (LRUCache K V) :=
  Except.error lru_set_ttl_type_error

/-- The mutable collaborators of an `ExternalAPIClient` touched by
`call_api`.  `_IMPORTS_AVAILABLE` is modelled as true (the configuration
in which limiter and cache exist); the performance counters
`call_count`/`error_count`, the audit logger and the SSL context do not
influence the returned response or the collaborator state and are
omitted. -/
structure ClientState where
  config : APIConfiguration
  circuit_breaker : Option CircuitBreaker
  rate_limiter : RateLimiter
  response_cache : LRUCache String ExternalServiceResponse
deriving DecidableEq

/-- Everything observable about one `call_api` invocation: the returned
response, the collaborator state afterwards, and how many times the
transport was invoked. -/
structure CallResult where
  response : ExternalServiceResponse
  state : ClientState
  transport_calls : Nat
deriving DecidableEq

/-- The `except Exception` block of `call_api`: records a breaker
failure (when a breaker is configured) and returns a failure response
with `error_message = str(e)`. -/
def call_api_fail (st : ClientState) (now : Int) (e : ApiError) : CallResult :=
  { response :=
      { success := false
        data := ""
        error_message := some e.message
        cached := false
        provider := st.config.provider }
    state :=
      { st with circuit_breaker :=
          st.circuit_breaker.map (fun cb => cb.record_failure now) }
    transport_calls := 0 }

/-- The breaker gate `self.circuit_breaker and not
self.circuit_breaker.can_execute()`: absent breaker passes; otherwise
`can_execute` decides and may mutate the breaker (OPEN to HALF_OPEN). -/
def breaker_gate (ocb : Option CircuitBreaker) (now : Int) : Bool × Option CircuitBreaker :=
  match ocb with
  | none => (true, none)
  | some cb => ((cb.can_execute now).1, some (cb.can_execute now).2)

/-- Python `ExternalAPIClient.call_api`, with `time.time()` fixed to the
single instant `now` (only orderings of timestamps matter to the modelled
state) and the HTTP layer behaviour supplied as `outcomes`.  The gate
rejections are `raise IntegrationError(...)` statements landing in the
same `except Exception` block as transport errors; the cache-store step
on the success path raises `TypeError` (see `lru_set_ttl_type_error`)
and lands there too. -/
def call_api (st : ClientState) (now : Int) (endpoint method data : String)
    (outcomes : List TransportOutcome) : CallResult :=
  let g := breaker_gate st.circuit_breaker now
  let st1 : ClientState := { st with circuit_breaker := g.2 }
  if g.1 = false then
    call_api_fail st1 now (.integration "Circuit breaker is open - service unavailable")
  else
    let a := st1.rate_limiter.allow_request now
    let st2 : ClientState := { st1 with rate_limiter := a.2 }
    if a.1 = false then
      call_api_fail st2 now (.integration "Rate limit exceeded")
    else
      let cache_key := generate_cache_key endpoint method data
      let cres := st2.response_cache.get cache_key
      let st3 : ClientState := { st2 with response_cache := cres.2 }
      match cres.1 with
      | some cached_response =>
          { response := { cached_response with cached := true }
            state := st3
            transport_calls := 0 }
      | none =>
          let ex := execute_with_retry st3.config outcomes
          match ex.1 with
          | .error e =>
              { call_api_fail st3 now e with transport_calls := ex.2 }
          | .ok response_data =>
              let st4 : ClientState :=
                { st3 with circuit_breaker :=
                    st3.circuit_breaker.map (fun cb => cb.record_success now) }
              let service_response : ExternalServiceResponse :=
                { success := true
                  data := response_data
                  error_message := none
                  cached := false
                  provider := st4.config.provider }
              match st4.response_cache.set_with_ttl cache_key service_response
                  st4.config.cache_ttl_seconds with
              | .error msg =>
                  { call_api_fail st4 now (.typeError msg) with transport_calls := ex.2 }
              | .ok rc =>
                  { response := service_response
                    state := { st4 with response_cache := rc }
                    transport_calls := ex.2 }

/-- Auxiliary: `record_failure` always increments the failure counter
and stamps the failure time, whatever the state. -/
theorem record_failure_count (cb : CircuitBreaker) (now : Int) :
    (cb.record_failure now).failure_count = cb.failure_count + 1 ∧
    (cb.record_failure now).last_failure_time = now := by
  unfold CircuitBreaker.record_failure
  cases h : cb.state <;>
    simp [h, CircuitBreaker.transition_to_open] <;>
    split <;> simp [CircuitBreaker.transition_to_open]

/-- Auxiliary: `can_execute` in the CLOSED state passes without
mutation. -/
theorem can_execute_closed (cb : CircuitBreaker) (now : Int)
    (hclosed : cb.state = .closed) :
    cb.can_execute now = (true, cb) := by
  unfold CircuitBreaker.can_execute
  rw [hclosed]

/-- Auxiliary: the limiter denies without mutation when the window is
current and the counter is exhausted. -/
theorem allow_request_denied (r : RateLimiter) (now : Int)
    (hwin : now - r.window_start < r.time_window)
    (hcnt : r.max_requests ≤ r.count) :
    r.allow_request now = (false, r) := by
  have hroll : ¬ r.time_window ≤ now - r.window_start := by omega
  simp only [RateLimiter.allow_request, if_neg hroll]
  rw [if_neg (show ¬ r.count < r.max_requests by omega)]

/-- Auxiliary: the limiter admits and counts the request when the window
is current and the counter is below the maximum. -/
theorem allow_request_granted (r : RateLimiter) (now : Int)
    (hwin : now - r.window_start < r.time_window)
    (hcnt : r.count < r.max_requests) :
    r.allow_request now = (true, { r with count := r.count + 1 }) := by
  have hroll : ¬ r.time_window ≤ now - r.window_start := by omega
  simp only [RateLimiter.allow_request, if_neg hroll]
  rw [if_pos hcnt]

/-- Breaker used by the evaluation states below: Open after 3 failures,
the last at time 100, with `failure_threshold = 3`,
`recovery_timeout = 60`, `success_threshold = 2`. -/
def cbOpenW : CircuitBreaker :=
  { config := ⟨3, 60, 2⟩
    state := .opened
    failure_count := 3
    success_count := 0
    last_failure_time := 100
    last_state_change := 100 }

/-- Client whose breaker gate rejects: breaker `cbOpenW`, fresh limiter,
empty cache. -/
def stOpenW : ClientState :=
  { config := {}
    circuit_breaker := some cbOpenW
    rate_limiter := { max_requests := 60, time_window := 60, window_start := 0, count := 0 }
    response_cache := { maxsize := 1000, entries := [] } }

/-- Client whose rate limiter rejects: fresh Closed breaker, limiter at
its maximum of 2 requests in the current window, empty cache. -/
def stRateW : ClientState :=
  { config := {}
    circuit_breaker := some (CircuitBreaker.init {} 0)
    rate_limiter := { max_requests := 2, time_window := 60, window_start := 0, count := 2 }
    response_cache := { maxsize := 1000, entries := [] } }

/-- C4 counterexample: with the breaker Open (3 recorded failures, last
at time 100, recovery timeout 60), the call at time 110 is rejected by
the gate — yet the breaker failure counter is not left unchanged: the
`raise IntegrationError` lands in the same `except` block as transport
errors, which calls `record_failure`, moving the counter from 3 to 4. -/
theorem gate_rejection_changes_breaker_counters :
    (call_api stOpenW 110 "ep" "GET" "" []).state.circuit_breaker.map
        (fun cb => cb.failure_count) = some 4 ∧
    stOpenW.circuit_breaker.map (fun cb => cb.failure_count) = some 3 := by
  decide

/-- C4 as amended: a call rejected by the breaker gate or by the rate
limiter returns a failure response without invoking the transport, but
the rejection IS recorded as a breaker failure: the resulting breaker is
`record_failure` applied to the gate-time breaker, so `failure_count`
increments and `last_failure_time` is restamped. -/
theorem gate_rejection_no_transport_but_breaker_failure :
    (∀ (st : ClientState) (now : Int) (endpoint method data : String)
        (outcomes : List TransportOutcome) (cb : CircuitBreaker),
        st.circuit_breaker = some cb → cb.state = .opened →
        now - cb.last_failure_time < cb.config.recovery_timeout →
        (call_api st now endpoint method data outcomes).response.success = false ∧
        (call_api st now endpoint method data outcomes).transport_calls = 0 ∧
        (call_api st now endpoint method data outcomes).state.circuit_breaker
          = some (cb.record_failure now) ∧
        (cb.record_failure now).failure_count = cb.failure_count + 1) ∧
    (∀ (st : ClientState) (now : Int) (endpoint method data : String)
        (outcomes : List TransportOutcome) (cb : CircuitBreaker),
        st.circuit_breaker = some cb → cb.state = .closed →
        now - st.rate_limiter.window_start < st.rate_limiter.time_window →
        st.rate_limiter.max_requests ≤ st.rate_limiter.count →
        (call_api st now endpoint method data outcomes).response.success = false ∧
        (call_api st now endpoint method data outcomes).transport_calls = 0 ∧
        (call_api st now endpoint method data outcomes).state.circuit_breaker
          = some (cb.record_failure now) ∧
        (cb.record_failure now).failure_count = cb.failure_count + 1) := by
  constructor
  · intro st now endpoint method data outcomes cb hcb hopen ht
    have hce := can_execute_open_blocked cb now hopen ht
    refine ⟨?_, ?_, ?_, (record_failure_count cb now).1⟩ <;>
      simp [call_api, breaker_gate, hcb, hce, call_api_fail]
  · intro st now endpoint method data outcomes cb hcb hclosed hwin hcnt
    have hce := can_execute_closed cb now hclosed
    have hrl := allow_request_denied st.rate_limiter now hwin hcnt
    refine ⟨?_, ?_, ?_, (record_failure_count cb now).1⟩ <;>
      simp [call_api, breaker_gate, hcb, hce, hrl, call_api_fail]

/-- Witness for the amended C4 at the two concrete clients above. -/
theorem gate_rejection_no_transport_witness :
    ((call_api stOpenW 110 "ep" "GET" "" []).response.success = false ∧
     (call_api stOpenW 110 "ep" "GET" "" []).transport_calls = 0 ∧
     (call_api stOpenW 110 "ep" "GET" "" []).state.circuit_breaker
       = some (cbOpenW.record_failure 110) ∧
     (cbOpenW.record_failure 110).failure_count = cbOpenW.failure_count + 1) ∧
    ((call_api stRateW 10 "ep" "GET" "" []).response.success = false ∧
     (call_api stRateW 10 "ep" "GET" "" []).transport_calls = 0 ∧
     (call_api stRateW 10 "ep" "GET" "" []).state.circuit_breaker
       = some ((CircuitBreaker.init {} 0).record_failure 10) ∧
     ((CircuitBreaker.init {} 0).record_failure 10).failure_count
       = (CircuitBreaker.init {} 0).failure_count + 1) :=
  ⟨gate_rejection_no_transport_but_breaker_failure.1 stOpenW 110 "ep" "GET" "" []
      cbOpenW (by decide) (by decide) (by decide),
   gate_rejection_no_transport_but_breaker_failure.2 stRateW 10 "ep" "GET" "" []
      (CircuitBreaker.init {} 0) (by decide) (by decide) (by decide) (by decide)⟩

/-- Fresh client for the C1 evaluation: Closed breaker with default
thresholds, fresh limiter, empty cache, default configuration. -/
def stFreshW : ClientState :=
  { config := {}
    circuit_breaker := some (CircuitBreaker.init {} 0)
    rate_limiter := { max_requests := 60, time_window := 60, window_start := 0, count := 0 }
    response_cache := { maxsize := 1000, entries := [] } }

/-- C1 (code bug): a call that passes both gates, misses the cache and
whose single transport attempt succeeds does reach
`circuit_breaker.record_success()` — but the following
`response_cache.set(cache_key, service_response, ttl=...)` raises
`TypeError` (`LRUCache.set` has no `ttl` parameter), which the
`except Exception` block catches: `record_failure` is also called, the
response is never cached, and `call_api` returns `success = false` with
the interpreter message instead of the success response the spec
promises. -/
theorem call_api_success_path_hits_type_error :
    (call_api stFreshW 1 "verify" "POST" "payload" [.ok "resp"]).response.success
      = false ∧
    (call_api stFreshW 1 "verify" "POST" "payload" [.ok "resp"]).response.error_message
      = some lru_set_ttl_type_error ∧
    (call_api stFreshW 1 "verify" "POST" "payload" [.ok "resp"]).state.response_cache.entries
      = [] ∧
    (call_api stFreshW 1 "verify" "POST" "payload" [.ok "resp"]).state.circuit_breaker
      = some (((CircuitBreaker.init {} 0).record_success 1).record_failure 1) ∧
    (call_api stFreshW 1 "verify" "POST" "payload" [.ok "resp"]).transport_calls = 1 := by
  decide

/-- Client for the C6 scenario: fresh Closed breaker and fresh limiter,
with the cache already holding the response for `("ep", "GET", "")`. -/
def stHitW : ClientState :=
  { config := {}
    circuit_breaker := some (CircuitBreaker.init {} 0)
    rate_limiter := { max_requests := 60, time_window := 60, window_start := 0, count := 0 }
    response_cache :=
      { maxsize := 1000
        entries := [(generate_cache_key "ep" "GET" "",
          { success := true, data := "cached-data", error_message := none,
             cached := false, provider := "custom" })] } }

/-- C6 counterexample: a cache-hit call returns the cached response with
`cached = true` and leaves the breaker counters alone, but it does NOT
leave the rate limiter window count unchanged — `allow_request` runs
before the cache lookup and counts the request, moving the window count
from 0 to 1. -/
theorem cache_hit_consumes_rate_limit_slot :
    (call_api stHitW 1 "ep" "GET" "" []).response.cached = true ∧
    (call_api stHitW 1 "ep" "GET" "" []).state.rate_limiter.count = 1 ∧
    stHitW.rate_limiter.count = 0 := by
  decide

/-- C6 as amended: a cache hit returns the cached response with
`cached = true`, makes no transport call and leaves the breaker
counters untouched, but the rate limiter window count is incremented,
because the rate-limit gate runs before the cache lookup. -/
theorem cache_hit_bypasses_breaker_but_not_limiter
    (st : ClientState) (now : Int) (endpoint method data : String)
    (outcomes : List TransportOutcome) (cb : CircuitBreaker)
    (resp : ExternalServiceResponse)
    (hcb : st.circuit_breaker = some cb) (hclosed : cb.state = .closed)
    (hwin : now - st.rate_limiter.window_start < st.rate_limiter.time_window)
    (hcnt : st.rate_limiter.count < st.rate_limiter.max_requests)
    (hhit : lookupKey (generate_cache_key endpoint method data)
              st.response_cache.entries = some resp) :
    (call_api st now endpoint method data outcomes).response
      = { resp with cached := true } ∧
    (call_api st now endpoint method data outcomes).transport_calls = 0 ∧
    (call_api st now endpoint method data outcomes).state.circuit_breaker = some cb ∧
    (call_api st now endpoint method data outcomes).state.rate_limiter.count
      = st.rate_limiter.count + 1 := by
  have hce := can_execute_closed cb now hclosed
  have hgr := allow_request_granted st.rate_limiter now hwin hcnt
  have hg : st.response_cache.get (generate_cache_key endpoint method data)
      = (some resp,
         { st.response_cache with
           entries := eraseKey (generate_cache_key endpoint method data)
               st.response_cache.entries
             ++ [(generate_cache_key endpoint method data, resp)] }) := by
    unfold LRUCache.get
    rw [hhit]
  refine ⟨?_, ?_, ?_, ?_⟩ <;>
    simp [call_api, breaker_gate, hcb, hce, hgr, hg]

/-- Witness for the amended C6 at the concrete client above. -/
theorem cache_hit_bypasses_breaker_witness :
    (call_api stHitW 1 "ep" "GET" "" []).response
      = { success := true, data := "cached-data", error_message := none,
          cached := true, provider := "custom" } ∧
    (call_api stHitW 1 "ep" "GET" "" []).transport_calls = 0 ∧
    (call_api stHitW 1 "ep" "GET" "" []).state.circuit_breaker
      = some (CircuitBreaker.init {} 0) ∧
    (call_api stHitW 1 "ep" "GET" "" []).state.rate_limiter.count
      = stHitW.rate_limiter.count + 1 :=
  cache_hit_bypasses_breaker_but_not_limiter stHitW 1 "ep" "GET" "" []
    (CircuitBreaker.init {} 0)
    { success := true, data := "cached-data", error_message := none,
      cached := false, provider := "custom" }
    (by decide) (by decide) (by decide) (by decide) (by decide)

/-- An outcome whose attempt raises an exception in the decorator's
retry tuple (a connection error or timeout; never an HTTP status
error). -/
def transient_outcome (o : TransportOutcome) : Bool :=
  match attempt_once o with
  | .ok _ => false
  | .error e => e.retryable

/-- Configuration with `max_retries = 5`, for the C5 counterexample. -/
def cfgRetry5 : APIConfiguration :=
  { provider := "custom"
    max_retries := 5
    rate_limit_per_minute := 60
    use_circuit_breaker := true
    cache_ttl_seconds := 3600 }

/-- C5 counterexample: with `max_retries = 5` configured and five
persistent connection errors, the transport is invoked 3 times, not 5 —
the decorator hard-codes `max_tries=3` and never reads
`config.max_retries`; and an HTTP 500 (a 5xx-equivalent "transient"
error per the claim) causes exactly one transport invocation, because
`IntegrationError` is not in the decorator's retry tuple. -/
theorem retry_ignores_config_and_never_retries_5xx :
    (execute_with_retry cfgRetry5
        (List.replicate 5 (TransportOutcome.connError "refused"))).2 = 3 ∧
    cfgRetry5.max_retries = 5 ∧
    (execute_with_retry cfgRetry5
        [TransportOutcome.httpStatus 500 "server error", TransportOutcome.ok "d"]).2
      = 1 := by
  decide

/-- C5 as amended: a connection error or timeout causes the transport to
be invoked again up to a hard-coded total of 3 attempts (the decorator's
`max_tries=3`, independent of `APIConfiguration.max_retries`), while any
HTTP response with status >= 400 — 4xx and 5xx alike — raises
`IntegrationError` and is never retried, causing exactly one transport
invocation. -/
theorem retry_classification (config : APIConfiguration)
    (o1 o2 o3 : TransportOutcome) (rest more : List TransportOutcome)
    (status : Nat) (body : String)
    (h1 : transient_outcome o1 = true) (h2 : transient_outcome o2 = true)
    (hs : 400 ≤ status) :
    (execute_with_retry config (o1 :: o2 :: o3 :: rest)).2 = 3 ∧
    (execute_with_retry config (TransportOutcome.httpStatus status body :: more)).2
      = 1 := by
  constructor
  · unfold execute_with_retry
    cases ha1 : attempt_once o1 with
    | ok b =>
        exact absurd h1 (by unfold transient_outcome; rw [ha1]; simp)
    | error e1 =>
        have he1 : e1.retryable = true := by
          unfold transient_outcome at h1; rwa [ha1] at h1
        cases ha2 : attempt_once o2 with
        | ok b =>
            exact absurd h2 (by unfold transient_outcome; rw [ha2]; simp)
        | error e2 =>
            have he2 : e2.retryable = true := by
              unfold transient_outcome at h2; rwa [ha2] at h2
            cases ha3 : attempt_once o3 with
            | ok b => simp [backoff_run, ha1, ha2, ha3, he1, he2]
            | error e3 => simp [backoff_run, ha1, ha2, ha3, he1, he2]
  · unfold execute_with_retry
    simp [backoff_run, attempt_once, if_pos hs, ApiError.retryable]

/-- Witness for the amended C5: a timeout then a connection error then a
timeout make 3 transport invocations; an HTTP 404 makes exactly one. -/
theorem retry_classification_witness :
    (execute_with_retry {}
        [TransportOutcome.timeout, TransportOutcome.connError "reset",
         TransportOutcome.timeout]).2 = 3 ∧
    (execute_with_retry {} [TransportOutcome.httpStatus 404 "not found"]).2 = 1 :=
  ⟨(retry_classification {} .timeout (.connError "reset") .timeout [] [] 404
      "not found" (by decide) (by decide) (by decide)).1,
   (retry_classification {} .timeout (.connError "reset") .timeout [] [] 404
      "not found" (by decide) (by decide) (by decide)).2⟩

/-- C9 counterexample: a call whose three transport attempts all time
out is converted to a returned failure response (nothing is raised), but
its `error_message` is `some ""` — `str(asyncio.TimeoutError())` is the
empty string — so the message is not non-empty as the claim states. -/
theorem timeout_failure_has_empty_error_message :
    (call_api stFreshW 1 "ep" "GET" "" [.timeout, .timeout, .timeout]).response.success
      = false ∧
    (call_api stFreshW 1 "ep" "GET" "" [.timeout, .timeout, .timeout]).response.error_message
      = some "" := by
  decide

/-- Auxiliary: the `IntegrationError` message built for an HTTP error
status is never empty (it starts with `"API error "`). -/
theorem api_error_message_nonempty (status : Nat) (body : String) :
    ("API error " ++ toString status ++ ": " ++ body) ≠ "" := by
  intro h
  have hlen := congrArg String.length h
  rw [String.length_append, String.length_append, String.length_append] at hlen
  rw [show ("API error ").length = 10 from rfl] at hlen
  rw [show ("").length = 0 from rfl] at hlen
  omega

/-- C9 as amended: expected failure modes are returned, never raised —
a breaker-gate rejection yields `success = false` with the non-empty
message `"Circuit breaker is open - service unavailable"`; a rate-limit
rejection yields the non-empty `"Rate limit exceeded"`; a transport
attempt answered with an HTTP status >= 400 yields the non-empty
`"API error {status}: {text}"` message of the `IntegrationError` it
raises; connection errors that exhaust the retries yield `str` of the
terminal `ClientError`; timeouts that exhaust the retries yield the
empty `str(asyncio.TimeoutError())` (see the counterexample); and
constructing an `LRUCache` with a non-positive `maxsize` does raise
(`ValueError("maxsize must be positive")`). -/
theorem expected_failures_are_returned :
    (∀ (st : ClientState) (now : Int) (endpoint method data : String)
        (outcomes : List TransportOutcome) (cb : CircuitBreaker),
        st.circuit_breaker = some cb → cb.state = .opened →
        now - cb.last_failure_time < cb.config.recovery_timeout →
        (call_api st now endpoint method data outcomes).response.success = false ∧
        (call_api st now endpoint method data outcomes).response.error_message
          = some "Circuit breaker is open - service unavailable" ∧
        "Circuit breaker is open - service unavailable" ≠ "") ∧
    (∀ (st : ClientState) (now : Int) (endpoint method data : String)
        (outcomes : List TransportOutcome) (cb : CircuitBreaker),
        st.circuit_breaker = some cb → cb.state = .closed →
        now - st.rate_limiter.window_start < st.rate_limiter.time_window →
        st.rate_limiter.max_requests ≤ st.rate_limiter.count →
        (call_api st now endpoint method data outcomes).response.success = false ∧
        (call_api st now endpoint method data outcomes).response.error_message
          = some "Rate limit exceeded" ∧
        "Rate limit exceeded" ≠ "") ∧
    (∀ (st : ClientState) (now : Int) (endpoint method data : String)
        (more : List TransportOutcome) (status : Nat) (body : String)
        (cb : CircuitBreaker),
        st.circuit_breaker = some cb → cb.state = .closed →
        now - st.rate_limiter.window_start < st.rate_limiter.time_window →
        st.rate_limiter.count < st.rate_limiter.max_requests →
        lookupKey (generate_cache_key endpoint method data)
          st.response_cache.entries = none →
        400 ≤ status →
        (call_api st now endpoint method data
            (TransportOutcome.httpStatus status body :: more)).response.success
          = false ∧
        (call_api st now endpoint method data
            (TransportOutcome.httpStatus status body :: more)).response.error_message
          = some ("API error " ++ toString status ++ ": " ++ body) ∧
        ("API error " ++ toString status ++ ": " ++ body) ≠ "") ∧
    (∀ (st : ClientState) (now : Int) (endpoint method data m1 m2 m3 : String)
        (cb : CircuitBreaker),
        st.circuit_breaker = some cb → cb.state = .closed →
        now - st.rate_limiter.window_start < st.rate_limiter.time_window →
        st.rate_limiter.count < st.rate_limiter.max_requests →
        lookupKey (generate_cache_key endpoint method data)
          st.response_cache.entries = none →
        (call_api st now endpoint method data
            [TransportOutcome.connError m1, TransportOutcome.connError m2,
             TransportOutcome.connError m3]).response.success = false ∧
        (call_api st now endpoint method data
            [TransportOutcome.connError m1, TransportOutcome.connError m2,
             TransportOutcome.connError m3]).response.error_message
          = some m3) ∧
    (∀ (st : ClientState) (now : Int) (endpoint method data : String)
        (cb : CircuitBreaker),
        st.circuit_breaker = some cb → cb.state = .closed →
        now - st.rate_limiter.window_start < st.rate_limiter.time_window →
        st.rate_limiter.count < st.rate_limiter.max_requests →
        lookupKey (generate_cache_key endpoint method data)
          st.response_cache.entries = none →
        (call_api st now endpoint method data
            [TransportOutcome.timeout, TransportOutcome.timeout,
             TransportOutcome.timeout]).response.success = false ∧
        (call_api st now endpoint method data
            [TransportOutcome.timeout, TransportOutcome.timeout,
             TransportOutcome.timeout]).response.error_message = some "") ∧
    (∀ maxsize : Int, maxsize ≤ 0 →
        LRUCache.mk_checked Nat Nat maxsize
          = Except.error "maxsize must be positive") := by
  refine ⟨?_, ?_, ?_, ?_, ?_, ?_⟩
  · intro st now endpoint method data outcomes cb hcb hopen ht
    have hce := can_execute_open_blocked cb now hopen ht
    refine ⟨?_, ?_, by decide⟩ <;>
      simp [call_api, breaker_gate, hcb, hce, call_api_fail, ApiError.message]
  · intro st now endpoint method data outcomes cb hcb hclosed hwin hcnt
    have hce := can_execute_closed cb now hclosed
    have hrl := allow_request_denied st.rate_limiter now hwin hcnt
    refine ⟨?_, ?_, by decide⟩ <;>
      simp [call_api, breaker_gate, hcb, hce, hrl, call_api_fail, ApiError.message]
  · intro st now endpoint method data more status body cb hcb hclosed hwin hcnt hmiss hs
    have hce := can_execute_closed cb now hclosed
    have hgr := allow_request_granted st.rate_limiter now hwin hcnt
    have hget : st.response_cache.get (generate_cache_key endpoint method data)
        = (none, st.response_cache) := by
      unfold LRUCache.get
      rw [hmiss]
    have hex : execute_with_retry st.config
        (TransportOutcome.httpStatus status body :: more)
        = (Except.error
            (ApiError.integration ("API error " ++ toString status ++ ": " ++ body)),
           1) := by
      unfold execute_with_retry backoff_run
      simp [attempt_once, if_pos hs, ApiError.retryable]
    refine ⟨?_, ?_, api_error_message_nonempty status body⟩ <;>
      simp [call_api, breaker_gate, hcb, hce, hgr, hget, hex, call_api_fail,
        ApiError.message]
  · intro st now endpoint method data m1 m2 m3 cb hcb hclosed hwin hcnt hmiss
    have hce := can_execute_closed cb now hclosed
    have hgr := allow_request_granted st.rate_limiter now hwin hcnt
    have hget : st.response_cache.get (generate_cache_key endpoint method data)
        = (none, st.response_cache) := by
      unfold LRUCache.get
      rw [hmiss]
    have hex : execute_with_retry st.config
        [TransportOutcome.connError m1, TransportOutcome.connError m2,
         TransportOutcome.connError m3]
        = (Except.error (ApiError.clientError m3), 3) := by
      simp [execute_with_retry, backoff_run, attempt_once, ApiError.retryable]
    constructor <;>
      simp [call_api, breaker_gate, hcb, hce, hgr, hget, hex, call_api_fail,
        ApiError.message]
  · intro st now endpoint method data cb hcb hclosed hwin hcnt hmiss
    have hce := can_execute_closed cb now hclosed
    have hgr := allow_request_granted st.rate_limiter now hwin hcnt
    have hget : st.response_cache.get (generate_cache_key endpoint method data)
        = (none, st.response_cache) := by
      unfold LRUCache.get
      rw [hmiss]
    have hex : execute_with_retry st.config
        [TransportOutcome.timeout, TransportOutcome.timeout, TransportOutcome.timeout]
        = (Except.error ApiError.timeoutError, 3) := by
      simp [execute_with_retry, backoff_run, attempt_once, ApiError.retryable]
    constructor <;>
      simp [call_api, breaker_gate, hcb, hce, hgr, hget, hex, call_api_fail,
        ApiError.message]
  · intro maxsize h
    unfold LRUCache.mk_checked
    rw [if_pos h]

/-- Witness for the amended C9: the gate rejections at the concrete
clients above, an HTTP 503 and persistent connection errors and
timeouts against the fresh client, and construction at `maxsize = 0`. -/
theorem expected_failures_are_returned_witness :
    ((call_api stOpenW 110 "hx" "GET" "" []).response.success = false ∧
     (call_api stOpenW 110 "hx" "GET" "" []).response.error_message
       = some "Circuit breaker is open - service unavailable" ∧
     "Circuit breaker is open - service unavailable" ≠ "") ∧
    ((call_api stRateW 10 "hx" "GET" "" []).response.success = false ∧
     (call_api stRateW 10 "hx" "GET" "" []).response.error_message
       = some "Rate limit exceeded" ∧
     "Rate limit exceeded" ≠ "") ∧
    ((call_api stFreshW 1 "hx" "GET" ""
        [TransportOutcome.httpStatus 503 "unavailable"]).response.success = false ∧
     (call_api stFreshW 1 "hx" "GET" ""
        [TransportOutcome.httpStatus 503 "unavailable"]).response.error_message
       = some ("API error " ++ toString 503 ++ ": " ++ "unavailable") ∧
     ("API error " ++ toString 503 ++ ": " ++ "unavailable") ≠ "") ∧
    ((call_api stFreshW 1 "hx" "GET" ""
        [TransportOutcome.connError "refused", TransportOutcome.connError "refused",
         TransportOutcome.connError "reset"]).response.success = false ∧
     (call_api stFreshW 1 "hx" "GET" ""
        [TransportOutcome.connError "refused", TransportOutcome.connError "refused",
         TransportOutcome.connError "reset"]).response.error_message
       = some "reset") ∧
    ((call_api stFreshW 1 "hx" "GET" ""
        [TransportOutcome.timeout, TransportOutcome.timeout,
         TransportOutcome.timeout]).response.success = false ∧
     (call_api stFreshW 1 "hx" "GET" ""
        [TransportOutcome.timeout, TransportOutcome.timeout,
         TransportOutcome.timeout]).response.error_message = some "") ∧
    LRUCache.mk_checked Nat Nat 0 = Except.error "maxsize must be positive" :=
  ⟨expected_failures_are_returned.1 stOpenW 110 "hx" "GET" "" [] cbOpenW
      (by decide) (by decide) (by decide),
   expected_failures_are_returned.2.1 stRateW 10 "hx" "GET" "" []
      (CircuitBreaker.init {} 0) (by decide) (by decide) (by decide) (by decide),
   expected_failures_are_returned.2.2.1 stFreshW 1 "hx" "GET" "" [] 503 "unavailable"
      (CircuitBreaker.init {} 0) (by decide) (by decide) (by decide) (by decide)
      (by decide) (by decide),
   expected_failures_are_returned.2.2.2.1 stFreshW 1 "hx" "GET" ""
      "refused" "refused" "reset" (CircuitBreaker.init {} 0)
      (by decide) (by decide) (by decide) (by decide) (by decide),
   expected_failures_are_returned.2.2.2.2.1 stFreshW 1 "hx" "GET" ""
      (CircuitBreaker.init {} 0) (by decide) (by decide) (by decide) (by decide)
      (by decide),
   expected_failures_are_returned.2.2.2.2.2 0 (by decide)⟩
end Pyidverify
